import Mathlib

/-!
Shallow embedding of the node-mapnik vector-tile binding
(`src/mapnik_vector_tile.cpp`, `src/pixel_utils.hpp`).

Machine integers of the C++ source (`std::int64_t`, `std::int32_t`,
`std::uint32_t`) are modelled as `Int`; every concrete value appearing in a
theorem is far below any overflow boundary.  JavaScript exceptions
(`ThrowAsJavaScriptException`) are modelled with `Except String` for the
constructor and with an explicit `Option String` error slot for the property
setters (the setter leaves the wrapped tile unchanged when it throws).
-/

set_option autoImplicit false

namespace NodeMapnik

/-- A JavaScript value as far as the binding's return paths need:
`env.Undefined()`, numbers and strings. -/
inductive JsValue where
  | undefined
  | num (n : Int)
  | str (s : String)
  deriving DecidableEq, Repr

/-- A point in the tile grid.  The validity/simplicity path decodes with
`decode_geometry<double>` at scale `1.0`, so the coordinates are the integer
grid values; we model them as `Int`. -/
abbrev Pt := Int × Int

/-- The mapnik geometry variant
(`mapnik::geometry::geometry<T>`): empty, point, multi-point, line-string,
multi-line-string, polygon (list of rings), multi-polygon and
geometry-collection. -/
inductive Geometry where
  | empty
  | point (p : Pt)
  | multiPoint (ps : List Pt)
  | lineString (ps : List Pt)
  | multiLineString (parts : List (List Pt))
  | polygon (rings : List (List Pt))
  | multiPolygon (polys : List (List (List Pt)))
  | collection (parts : List Geometry)

/-- One feature of a decoded layer: the encoded feature id (`0` when the
`ID` field is absent, matching `std::uint64_t feature_id = 0;` in
`layer_not_valid`), and the decoded geometry — `none` when the feature
message lacks the `GEOMETRY` or `TYPE` field (`has_geom && has_geom_type`
is false). -/
structure MvtFeature where
  fid : Int
  geom : Option Geometry

/-- One layer of a tile: its `name` field and its feature messages. -/
structure MvtLayer where
  name : String
  features : List MvtFeature

/-- The state behind a `VectorTile` JavaScript object: the
`mapnik::vector_tile_impl::merc_tile` it wraps.  `layers` is the decoded
view of the tile's protobuf buffer; `painted` is the tile's painted flag
(`false` for a freshly constructed tile). -/
structure MercTile where
  x : Int
  y : Int
  z : Int
  tile_size : Int
  buffer_size : Int
  layers : List MvtLayer
  painted : Bool

/-- Options object accepted by the `VectorTile` constructor: the optional
`tile_size` and `buffer_size` properties (a field is `none` when the
property is absent). -/
structure VTOptions where
  tile_size : Option Int
  buffer_size : Option Int

namespace VectorTile

/-- The `VectorTile` constructor (`VectorTile::VectorTile`,
`src/mapnik_vector_tile.cpp:143-232`): validates `z`, `x`, `y` against
`0 ≤ x,y < 2^z`, then the options (`tile_size > 0`,
`tile_size + 2*buffer_size > 0`, defaults `4096` and `128`), and only then
allocates the `merc_tile`.  `opts = none` models a call with only the three
address arguments. -/
def construct (z x y : Int) (opts : Option VTOptions) : Except String MercTile :=
  if z < 0 ∨ x < 0 ∨ y < 0 then
    .error ("required parameters (z, x, and y) must be greater then or equal to zero")
  else
    let max_at_zoom : Int := 2 ^ z.toNat
    if x ≥ max_at_zoom then
      .error ("required parameter x is out of range of possible values based on z value")
    else if y ≥ max_at_zoom then
      .error ("required parameter y is out of range of possible values based on z value")
    else
      let tile_size : Int := 4096
      let buffer_size : Int := 128
      match opts with
      | none =>
          if tile_size + 2 * buffer_size ≤ 0 then
            .error ("too large of a negative buffer for tilesize")
          else
            .ok ⟨x, y, z, tile_size, buffer_size, [], false⟩
      | some o =>
          match o.tile_size with
          | some ts =>
              if ts ≤ 0 then
                .error ("optional arg 'tile_size' must be greater then zero")
              else
                let bs := o.buffer_size.getD buffer_size
                if ts + 2 * bs ≤ 0 then
                  .error ("too large of a negative buffer for tilesize")
                else
                  .ok ⟨x, y, z, ts, bs, [], false⟩
          | none =>
              let bs := o.buffer_size.getD buffer_size
              if tile_size + 2 * bs ≤ 0 then
                .error ("too large of a negative buffer for tilesize")
              else
                .ok ⟨x, y, z, tile_size, bs, [], false⟩

/-- Setter of the `x` property (`VectorTile::set_tile_x`,
`src/mapnik_vector_tile.cpp:3573-3590`): rejects a negative value with an
error and otherwise stores the value.  On error the tile is returned
unchanged, mirroring the thrown JavaScript exception. -/
def set_tile_x (t : MercTile) (val : Int) : MercTile × Option String :=
  if val < 0 then
    (t, some ("tile x coordinate must be greater then or equal to zero"))
  else
    ({ t with x := val }, none)

/-- Setter of the `y` property (`VectorTile::set_tile_y`,
`src/mapnik_vector_tile.cpp:3592-3610`). -/
def set_tile_y (t : MercTile) (val : Int) : MercTile × Option String :=
  if val < 0 then
    (t, some ("tile y coordinate must be greater then or equal to zero"))
  else
    ({ t with y := val }, none)

/-- Setter of the `tileSize` property (`VectorTile::set_tile_size`,
`src/mapnik_vector_tile.cpp:3632-3650`): rejects `val ≤ 0`, otherwise
stores the value.  It does not look at `buffer_size`. -/
def set_tile_size (t : MercTile) (val : Int) : MercTile × Option String :=
  if val ≤ 0 then
    (t, some ("tile size must be greater then zero"))
  else
    ({ t with tile_size := val }, none)

/-- Setter of the `bufferSize` property (`VectorTile::set_buffer_size`,
`src/mapnik_vector_tile.cpp:3652-3670`): rejects a value that would make
`tile_size + 2*val` non-positive, otherwise stores it. -/
def set_buffer_size (t : MercTile) (val : Int) : MercTile × Option String :=
  if t.tile_size + 2 * val ≤ 0 then
    (t, some ("too large of a negative buffer for tilesize"))
  else
    ({ t with buffer_size := val }, none)

end VectorTile

/-- The effective-size invariant of the spec: `tile_size + 2*buffer_size`
is strictly positive. -/
def sizeInvariant (t : MercTile) : Prop :=
  0 < t.tile_size + 2 * t.buffer_size

instance (t : MercTile) : Decidable (sizeInvariant t) := by
  unfold sizeInvariant; infer_instance

/-! ## Modelled OGC predicates

`mapnik::geometry::is_simple` and `mapnik::geometry::is_valid` live in the
mapnik core library, outside this repository's sources. -/

/-- Twice the signed area of the triangle `a b c`; zero iff collinear. -/
def orient2d (a b c : Pt) : Int :=
  (b.1 - a.1) * (c.2 - a.2) - (b.2 - a.2) * (c.1 - a.1)

/-- Whether `p` lies on the closed segment from `a` to `b`. -/
def onSegment (a b p : Pt) : Bool :=
  decide (orient2d a b p = 0 ∧
    min a.1 b.1 ≤ p.1 ∧ p.1 ≤ max a.1 b.1 ∧
    min a.2 b.2 ≤ p.2 ∧ p.2 ≤ max a.2 b.2)

/-- Whether the closed segments `p1p2` and `q1q2` share at least one point. -/
def segmentsIntersect (p1 p2 q1 q2 : Pt) : Bool :=
  decide (orient2d q1 q2 p1 * orient2d q1 q2 p2 < 0 ∧
          orient2d p1 p2 q1 * orient2d p1 p2 q2 < 0) ||
  onSegment q1 q2 p1 || onSegment q1 q2 p2 ||
  onSegment p1 p2 q1 || onSegment p1 p2 q2

/-- Two segments sharing the endpoint `e` (their other endpoints being `u`
and `v`) overlap beyond the shared point iff they are collinear and leave
`e` in the same direction. -/
def sharedEndpointOverlap (e u v : Pt) : Bool :=
  decide (orient2d e u v = 0 ∧
    0 < (u.1 - e.1) * (v.1 - e.1) + (u.2 - e.2) * (v.2 - e.2))

/-- The consecutive segments of a point list. -/
def segsOf (ps : List Pt) : List (Pt × Pt) := ps.zip ps.tail

/-- Pair check used by `lineStringSimple` for segments `i < j` of a line
of `n` segments: adjacent segments (and, on a closed line, the
first/last pair) may touch only at their shared vertex; any other pair
must not intersect at all. -/
def segPairOk (closed : Bool) (n i j : Nat) (s t : Pt × Pt) : Bool :=
  if j = i + 1 then !sharedEndpointOverlap s.2 s.1 t.2
  else if closed && i = 0 && j + 1 = n then !sharedEndpointOverlap s.1 s.2 t.1
  else !segmentsIntersect s.1 s.2 t.1 t.2

/-- Modelled from the spec: OGC simplicity of a line string (mapnik core's
`is_simple`, not in this repository's sources) — "no self-intersection":
no degenerate segment, and no two segments meeting anywhere but at a
shared vertex.  A closed point list is treated as a ring, whose first and
last segments legitimately share the ring's base point. -/
def lineStringSimple (ps : List Pt) : Bool :=
  let segs := segsOf ps
  let n := segs.length
  let closed := decide (2 ≤ n) && decide (ps.head? = ps.getLast?)
  segs.all (fun s => !decide (s.1 = s.2)) &&
  (List.range n).all (fun i => (List.range n).all (fun j =>
    if j ≤ i then true
    else match segs.get? i, segs.get? j with
      | some s, some t => segPairOk closed n i j s t
      | _, _ => true))

/-- Whether a polygon ring is closed: non-empty and first vertex equal to
the last. -/
def ringClosed (r : List Pt) : Bool :=
  !r.isEmpty && decide (r.head? = r.getLast?)

mutual

/-- Modelled from the spec: the OGC simplicity predicate over the geometry
variant (mapnik core's `mapnik::geometry::is_simple`, not in this
repository's sources).  Points are trivially simple, a multi-point is
simple when no point repeats, lines and rings must be free of
self-intersection. -/
def ogcSimple : Geometry → Bool
  | .empty => true
  | .point _ => true
  | .multiPoint ps => decide ps.Nodup
  | .lineString ps => lineStringSimple ps
  | .multiLineString parts => parts.all lineStringSimple
  | .polygon rings => rings.all (fun r => ringClosed r && lineStringSimple r)
  | .multiPolygon polys =>
      polys.all (fun rings => rings.all (fun r => ringClosed r && lineStringSimple r))
  | .collection parts => ogcSimpleList parts

/-- Simplicity of every member of a geometry collection. -/
def ogcSimpleList : List Geometry → Bool
  | [] => true
  | g :: gs => ogcSimple g && ogcSimpleList gs

end

/-- Modelled from the spec: the OGC validity predicate with failure
message (mapnik core's `mapnik::geometry::is_valid(geom, message)`, not in
this repository's sources).  Per the spec, point/multi-point are trivially
valid, line strings are checked for self-intersection except at endpoints,
polygons for ring closure and ring non-self-intersection (hole containment
is not exercised by any input evaluated here), and multi geometries as the
conjunction over their parts. -/
def ogcValidMsg : Geometry → Option String
  | .empty => none
  | .point _ => none
  | .multiPoint _ => none
  | .lineString ps =>
      if lineStringSimple ps then none else some ("line string self-intersects")
  | .multiLineString parts =>
      if parts.all lineStringSimple then none else some ("line string self-intersects")
  | .polygon rings =>
      if rings.all ringClosed then
        if rings.all lineStringSimple then none else some ("polygon ring self-intersects")
      else some ("polygon ring is not closed")
  | .multiPolygon polys =>
      if polys.all (fun rings => rings.all ringClosed) then
        if polys.all (fun rings => rings.all lineStringSimple) then none
        else some ("polygon ring self-intersects")
      else some ("polygon ring is not closed")
  | .collection _ => none

/-! ## The validity/simplicity checker (`src/mapnik_vector_tile.cpp`) -/

/-- `not_simple_feature` (`src/mapnik_vector_tile.cpp:2672-2680`). -/
structure not_simple_feature where
  layer : String
  feature_id : Int
  deriving DecidableEq, Repr

/-- `not_valid_feature` (`src/mapnik_vector_tile.cpp:2683-2697`). -/
structure not_valid_feature where
  message : String
  layer : String
  feature_id : Int
  geojson : String
  deriving DecidableEq, Repr

/-- The single-feature GeoJSON FeatureCollection string built by
`visitor_geom_valid` around the serialized offending feature. -/
def featureCollectionWrap (s : String) : String :=
  "\x7b\"type\":\"FeatureCollection\",\"features\":[" ++ s ++ "]\x7d"

/-- One validity check of `visitor_geom_valid`: run the validity predicate
on `g`; on failure emit the single error record carrying the message, the
layer name, the checked feature's id and the GeoJSON snippet.  `toJson`
abstracts `mapnik::util::to_geojson` applied to the rebuilt feature
(id + geometry; attribute passthrough is folded into the serializer). -/
def checkGeom (isValidMsg : Geometry → Option String) (toJson : Int → Geometry → String)
    (fid : Int) (layer_name : String) (g : Geometry) : List not_valid_feature :=
  match isValidMsg g with
  | none => []
  | some m => [⟨m, layer_name, fid, featureCollectionWrap (toJson fid g)⟩]

/-- The `split_multi_features` loop of `visitor_geom_valid` over the parts
of a multi-line-string: each part is checked separately. -/
def visitSplitLines (isValidMsg : Geometry → Option String) (toJson : Int → Geometry → String)
    (fid : Int) (layer_name : String) : List (List Pt) → List not_valid_feature
  | [] => []
  | ls :: rest =>
      checkGeom isValidMsg toJson fid layer_name (.lineString ls) ++
      visitSplitLines isValidMsg toJson fid layer_name rest

/-- The `split_multi_features` loop of `visitor_geom_valid` over the parts
of a multi-polygon. -/
def visitSplitPolys (isValidMsg : Geometry → Option String) (toJson : Int → Geometry → String)
    (fid : Int) (layer_name : String) : List (List (List Pt)) → List not_valid_feature
  | [] => []
  | poly :: rest =>
      checkGeom isValidMsg toJson fid layer_name (.polygon poly) ++
      visitSplitPolys isValidMsg toJson fid layer_name rest

mutual

/-- `visitor_geom_valid` (`src/mapnik_vector_tile.cpp:2733-2998`): checks
one feature's geometry, appending one error record per failed check.
Multi-line-strings and multi-polygons are checked part-by-part when
`split_multi_features` is set and as a whole otherwise; a geometry
collection (unreachable from the decoder) recursively visits its parts. -/
def visitor_geom_valid (isValidMsg : Geometry → Option String)
    (toJson : Int → Geometry → String) (fid : Int) (layer_name : String)
    (split_multi_features : Bool) : Geometry → List not_valid_feature
  | .empty => []
  | .point p => checkGeom isValidMsg toJson fid layer_name (.point p)
  | .multiPoint ps => checkGeom isValidMsg toJson fid layer_name (.multiPoint ps)
  | .lineString ps => checkGeom isValidMsg toJson fid layer_name (.lineString ps)
  | .multiLineString parts =>
      if split_multi_features then
        visitSplitLines isValidMsg toJson fid layer_name parts
      else checkGeom isValidMsg toJson fid layer_name (.multiLineString parts)
  | .polygon rings => checkGeom isValidMsg toJson fid layer_name (.polygon rings)
  | .multiPolygon polys =>
      if split_multi_features then
        visitSplitPolys isValidMsg toJson fid layer_name polys
      else checkGeom isValidMsg toJson fid layer_name (.multiPolygon polys)
  | .collection parts =>
      visitor_geom_valid_list isValidMsg toJson fid layer_name split_multi_features parts

/-- The geometry-collection arm of `visitor_geom_valid`. -/
def visitor_geom_valid_list (isValidMsg : Geometry → Option String)
    (toJson : Int → Geometry → String) (fid : Int) (layer_name : String)
    (split_multi_features : Bool) : List Geometry → List not_valid_feature
  | [] => []
  | g :: gs =>
      visitor_geom_valid isValidMsg toJson fid layer_name split_multi_features g ++
      visitor_geom_valid_list isValidMsg toJson fid layer_name split_multi_features gs

end

/-- The datasource branch of `layer_not_valid`
(`src/mapnik_vector_tile.cpp:3009-3045`, taken when `web_merc || lat_lon`):
iterate the layer's features as decoded by `tile_datasource_pbf` — each
carrying its own id — reproject when `lat_lon` is set (`reproj` abstracts
`mapnik::geometry::reproject_copy` mercator→WGS84), and visit each
geometry. -/
def notValidDatasourceLoop (isValidMsg : Geometry → Option String)
    (toJson : Int → Geometry → String) (reproj : Geometry → Geometry) (lat_lon : Bool)
    (split_multi_features : Bool) (layer_name : String) :
    List MvtFeature → List not_valid_feature
  | [] => []
  | f :: fs =>
      let g0 := f.geom.getD .empty
      let g := if lat_lon then reproj g0 else g0
      visitor_geom_valid isValidMsg toJson f.fid layer_name split_multi_features g ++
      notValidDatasourceLoop isValidMsg toJson reproj lat_lon split_multi_features layer_name fs

/-- The raw-protobuf branch of `layer_not_valid`
(`src/mapnik_vector_tile.cpp:3046-3108`, taken when neither `web_merc`
nor `lat_lon` is set): features lacking the geometry or geometry-type
field are skipped; every other feature is decoded and visited.  The
source parses the feature's `ID` field into a local `feature_id`, but the
feature it hands to the visitor is built as
`mapnik::feature_factory::create(ctx, 1)` (line 3100), so the visited —
and therefore reported — feature id is the constant `1`. -/
def notValidPbfLoop (isValidMsg : Geometry → Option String)
    (toJson : Int → Geometry → String) (split_multi_features : Bool)
    (layer_name : String) : List MvtFeature → List not_valid_feature
  | [] => []
  | f :: fs =>
      (match f.geom with
       | none => []
       | some g => visitor_geom_valid isValidMsg toJson 1 layer_name split_multi_features g) ++
      notValidPbfLoop isValidMsg toJson split_multi_features layer_name fs

/-- `layer_not_valid` (`src/mapnik_vector_tile.cpp:3000-3109`). -/
def layer_not_valid (isValidMsg : Geometry → Option String)
    (toJson : Int → Geometry → String) (reproj : Geometry → Geometry)
    (split_multi_features lat_lon web_merc : Bool) (layer : MvtLayer) :
    List not_valid_feature :=
  if web_merc || lat_lon then
    notValidDatasourceLoop isValidMsg toJson reproj lat_lon split_multi_features
      layer.name layer.features
  else
    notValidPbfLoop isValidMsg toJson split_multi_features layer.name layer.features

/-- `vector_tile_not_valid` (`src/mapnik_vector_tile.cpp:3144-3163`):
run `layer_not_valid` over every layer of the tile, accumulating the
errors in layer order. -/
def vector_tile_not_valid (isValidMsg : Geometry → Option String)
    (toJson : Int → Geometry → String) (reproj : Geometry → Geometry)
    (split_multi_features lat_lon web_merc : Bool) (t : MercTile) :
    List not_valid_feature :=
  (t.layers.map (layer_not_valid isValidMsg toJson reproj
    split_multi_features lat_lon web_merc)).flatten

/-- `VectorTile::reportGeometryValiditySync`
(`src/mapnik_vector_tile.cpp:3262-3324`): option flags default to `false`;
the result is the error list (returned to JavaScript as an array of
`{layer, featureId, message, geojson}` objects). -/
def reportGeometryValiditySync (isValidMsg : Geometry → Option String)
    (toJson : Int → Geometry → String) (reproj : Geometry → Geometry)
    (split_multi_features lat_lon web_merc : Bool) (t : MercTile) :
    List not_valid_feature :=
  vector_tile_not_valid isValidMsg toJson reproj split_multi_features lat_lon web_merc t

/-- The feature loop of `layer_not_simple`
(`src/mapnik_vector_tile.cpp:2699-2731`): every feature of the layer is
tested with `is_simple`; each failure appends one `{layer, featureId}`
record (with the feature's own id) to the running error list, and the loop
always continues to the next feature. -/
def notSimpleLoop (is_simple : Geometry → Bool) (layer_name : String) :
    List MvtFeature → List not_simple_feature → List not_simple_feature
  | [], acc => acc
  | f :: fs, acc =>
      if is_simple (f.geom.getD .empty) then
        notSimpleLoop is_simple layer_name fs acc
      else
        notSimpleLoop is_simple layer_name fs (acc ++ [⟨layer_name, f.fid⟩])

/-- `layer_not_simple` over one layer, starting from an error prefix. -/
def layer_not_simple (is_simple : Geometry → Bool) (layer : MvtLayer)
    (acc : List not_simple_feature) : List not_simple_feature :=
  notSimpleLoop is_simple layer.name layer.features acc

/-- The layer loop of `vector_tile_not_simple`
(`src/mapnik_vector_tile.cpp:3111-3124`). -/
def vectorTileNotSimpleLoop (is_simple : Geometry → Bool) :
    List MvtLayer → List not_simple_feature → List not_simple_feature
  | [], acc => acc
  | L :: Ls, acc =>
      vectorTileNotSimpleLoop is_simple Ls (layer_not_simple is_simple L acc)

/-- `vector_tile_not_simple`: all layers, starting from an empty error
list. -/
def vector_tile_not_simple (is_simple : Geometry → Bool) (t : MercTile) :
    List not_simple_feature :=
  vectorTileNotSimpleLoop is_simple t.layers []

/-- `VectorTile::reportGeometrySimplicitySync`
(`src/mapnik_vector_tile.cpp:3221-3241`): returns the error list (as a
JavaScript array of `{layer, featureId}` objects). -/
def reportGeometrySimplicitySync (is_simple : Geometry → Bool) (t : MercTile) :
    List not_simple_feature :=
  vector_tile_not_simple is_simple t

/-! ## Entry points whose implementation is commented out in this revision

`VectorTile::compositeSync` (`src/mapnik_vector_tile.cpp:308-641`),
`VectorTile::composite` (`728-1097`) and `VectorTile::layer`
(`1187-1237`) consist of a `return env.Undefined();` followed by the whole
former implementation inside a block comment.  The compiled code never
reads its arguments, never throws, and never touches the wrapped tile. -/

/-- `VectorTile::compositeSync` as compiled
(`src/mapnik_vector_tile.cpp:308-313`): returns `undefined` at once; the
destination tile is untouched and the source tiles and options are never
read. -/
def VectorTile.compositeSync (t : MercTile) (_sources : List MercTile)
    (_options : List (String × JsValue)) : MercTile × JsValue :=
  (t, .undefined)

/-- `VectorTile::composite` as compiled
(`src/mapnik_vector_tile.cpp:728-731`): identical stub. -/
def VectorTile.composite (t : MercTile) (_sources : List MercTile)
    (_options : List (String × JsValue)) : MercTile × JsValue :=
  (t, .undefined)

/-- `VectorTile::layer` as compiled (`src/mapnik_vector_tile.cpp:1187-1192`):
returns `undefined` at once; no error is thrown for a missing layer name
and no extracted tile is produced for an existing one. -/
def VectorTile.layer (t : MercTile) (_layer_name : String) : MercTile × JsValue :=
  (t, .undefined)

/-! ## Pixel visitors (`src/pixel_utils.hpp`) -/

/-- The image variant handed to the pixel visitors: either the null image
(which owns no pixel data at all) or a typed image with its pixel grid. -/
inductive ImageAny (α : Type) where
  | null
  | typed (pixels : Int → Int → α)

/-- `detail::visitor_get_pixel` (`src/pixel_utils.hpp:6-33`): on the null
image it returns `env_.Undefined()` (modelled `none`) — the null arm holds
no pixel data to read; on a typed image it reads the pixel at `(x, y)`. -/
def visitor_get_pixel {α : Type} (img : ImageAny α) (x y : Int) : Option α :=
  match img with
  | .null => none
  | .typed pixels => some (pixels x y)

/-- `detail::visitor_set_pixel` (`src/pixel_utils.hpp:35-54`): on the null
image it is a no-op; on a typed image it writes `num` at `(x, y)`. -/
def visitor_set_pixel {α : Type} (num : α) (x y : Int) (img : ImageAny α) :
    ImageAny α :=
  match img with
  | .null => img
  | .typed pixels =>
      .typed (fun i j => if i = x ∧ j = y then num else pixels i j)

/-! ## Concrete fixtures used by the evaluated scenarios -/

/-- The tile freshly constructed by `new VectorTile(0, 0, 0)`. -/
def tile000 : MercTile := ⟨0, 0, 0, 4096, 128, [], false⟩

/-- A layer named `"roads"` holding one feature (id 7) whose geometry is a
simple 2-point line. -/
def roadsLayer : MvtLayer :=
  ⟨"roads", [⟨7, some (.lineString [(5, 5), (100, 100)])⟩]⟩

/-- The tile `(0,0,0)` with the single `"roads"` layer. -/
def roadsTile : MercTile := ⟨0, 0, 0, 4096, 128, [roadsLayer], false⟩

/-- A closed but self-intersecting (bow-tie) polygon ring. -/
def bowtieRing : List Pt := [(0, 0), (4, 4), (4, 0), (0, 4), (0, 0)]

/-- A layer named `"parcels"` holding one feature whose encoded id is 42
and whose geometry is the invalid bow-tie polygon. -/
def parcelsLayer : MvtLayer :=
  ⟨"parcels", [⟨42, some (.polygon [bowtieRing])⟩]⟩

/-- The tile `(0,0,0)` with the single `"parcels"` layer. -/
def parcelsTile : MercTile := ⟨0, 0, 0, 4096, 128, [parcelsLayer], false⟩

/-- A source tile at address `(z=1, x, 0)` with a one-feature `"points"`
layer. -/
def pointsTile (x fid : Int) : MercTile :=
  ⟨x, 0, 1, 4096, 128, [⟨"points", [⟨fid, some (.point (2048, 2048))⟩]⟩], false⟩

/-- A tile holding two empty layers named `"a"` and `"b"`. -/
def abTile : MercTile := ⟨0, 0, 0, 4096, 128, [⟨"a", []⟩, ⟨"b", []⟩], false⟩

/-- Total number of features across the layers of `t` named `lname`. -/
def featureCountIn (t : MercTile) (lname : String) : Nat :=
  ((t.layers.filter (fun L => L.name == lname)).map (fun L => L.features.length)).sum

/-- The tile constructed with `tile_size = 4096`, `buffer_size = -2000`
(effective size `96 > 0`, so construction succeeds). -/
def tileThinBuffer : MercTile := ⟨0, 0, 0, 4096, -2000, [], false⟩

end NodeMapnik

namespace NodeMapnik

/-- C2: the constructor rejects any address with a negative coordinate or
with `x ≥ 2^z` or `y ≥ 2^z` before allocating a tile, and accepts every
address with `0 ≤ x,y < 2^z`. -/
theorem construct_address_validation (z x y : Int) (opts : Option VTOptions) :
    (z < 0 ∨ x < 0 ∨ y < 0 → ∃ e, VectorTile.construct z x y opts = .error e) ∧
    (0 ≤ z → 0 ≤ x → 0 ≤ y → (2 : Int) ^ z.toNat ≤ x →
      VectorTile.construct z x y opts =
        .error ("required parameter x is out of range of possible values based on z value")) ∧
    (0 ≤ z → 0 ≤ x → 0 ≤ y → x < 2 ^ z.toNat → (2 : Int) ^ z.toNat ≤ y →
      VectorTile.construct z x y opts =
        .error ("required parameter y is out of range of possible values based on z value")) ∧
    (0 ≤ z → 0 ≤ x → 0 ≤ y → x < 2 ^ z.toNat → y < 2 ^ z.toNat →
      ∃ t, VectorTile.construct z x y none = .ok t) := by
  refine ⟨?_, ?_, ?_, ?_⟩
  · intro h
    refine ⟨"required parameters (z, x, and y) must be greater then or equal to zero", ?_⟩
    simp [VectorTile.construct, h]
  · intro hz hx hy hbig
    have hnneg : ¬ (z < 0 ∨ x < 0 ∨ y < 0) := by omega
    simp [VectorTile.construct, hnneg, hbig]
  · intro hz hx hy hxlt hbig
    have hnneg : ¬ (z < 0 ∨ x < 0 ∨ y < 0) := by omega
    have hxn : ¬ ((2:Int) ^ z.toNat ≤ x) := not_le.mpr hxlt
    simp [VectorTile.construct, hnneg, hxn, hbig]
  · intro hz hx hy hxlt hylt
    have hnneg : ¬ (z < 0 ∨ x < 0 ∨ y < 0) := by omega
    have hxn : ¬ ((2:Int) ^ z.toNat ≤ x) := not_le.mpr hxlt
    have hyn : ¬ ((2:Int) ^ z.toNat ≤ y) := not_le.mpr hylt
    refine ⟨⟨x, y, z, 4096, 128, [], false⟩, ?_⟩
    simp [VectorTile.construct, hnneg, hxn, hyn]

/-- C2 witness: `new VectorTile(0, 1, 0)` fails with the out-of-range
error, and `new VectorTile(1, 1, 0)` succeeds. -/
theorem construct_address_validation_witness :
    VectorTile.construct 0 1 0 none =
      .error ("required parameter x is out of range of possible values based on z value") ∧
    (∃ t, VectorTile.construct 1 1 0 none = .ok t) :=
  ⟨(construct_address_validation 0 1 0 none).2.1 (by decide) (by decide) (by decide) (by decide),
   (construct_address_validation 1 1 0 none).2.2.2 (by decide) (by decide) (by decide)
     (by decide) (by decide)⟩

/-- C9: the constructor rejects a non-positive `tile_size` and any
`(tile_size, buffer_size)` pair with `tile_size + 2*buffer_size ≤ 0`
(returning an error, so no tile is constructed), and with no options the
constructed tile has the default `tile_size` of `4096`. -/
theorem construct_options_validation (z x y ts bs : Int) (bso : Option Int) :
    (0 ≤ z → 0 ≤ x → 0 ≤ y → x < 2 ^ z.toNat → y < 2 ^ z.toNat →
      ts ≤ 0 →
      VectorTile.construct z x y (some ⟨some ts, bso⟩) =
        .error ("optional arg 'tile_size' must be greater then zero")) ∧
    (0 ≤ z → 0 ≤ x → 0 ≤ y → x < 2 ^ z.toNat → y < 2 ^ z.toNat →
      0 < ts → ts + 2 * bs ≤ 0 →
      VectorTile.construct z x y (some ⟨some ts, some bs⟩) =
        .error ("too large of a negative buffer for tilesize")) ∧
    (0 ≤ z → 0 ≤ x → 0 ≤ y → x < 2 ^ z.toNat → y < 2 ^ z.toNat →
      ∃ t, VectorTile.construct z x y none = .ok t ∧ t.tile_size = 4096) := by
  refine ⟨?_, ?_, ?_⟩
  · intro hz hx hy hxlt hylt hts
    have hnneg : ¬ (z < 0 ∨ x < 0 ∨ y < 0) := by omega
    have hxn : ¬ ((2:Int) ^ z.toNat ≤ x) := not_le.mpr hxlt
    have hyn : ¬ ((2:Int) ^ z.toNat ≤ y) := not_le.mpr hylt
    simp [VectorTile.construct, hnneg, hxn, hyn, hts]
  · intro hz hx hy hxlt hylt hts hsum
    have hnneg : ¬ (z < 0 ∨ x < 0 ∨ y < 0) := by omega
    have hxn : ¬ ((2:Int) ^ z.toNat ≤ x) := not_le.mpr hxlt
    have hyn : ¬ ((2:Int) ^ z.toNat ≤ y) := not_le.mpr hylt
    have hts' : ¬ (ts ≤ 0) := not_le.mpr hts
    simp [VectorTile.construct, hnneg, hxn, hyn, hts', hsum]
  · intro hz hx hy hxlt hylt
    have hnneg : ¬ (z < 0 ∨ x < 0 ∨ y < 0) := by omega
    have hxn : ¬ ((2:Int) ^ z.toNat ≤ x) := not_le.mpr hxlt
    have hyn : ¬ ((2:Int) ^ z.toNat ≤ y) := not_le.mpr hylt
    refine ⟨⟨x, y, z, 4096, 128, [], false⟩, ?_, rfl⟩
    simp [VectorTile.construct, hnneg, hxn, hyn]

/-- C9 witness: at `(0,0,0)`, `tile_size = 0` is rejected,
`tile_size = 10, buffer_size = -5` is rejected, and construction with no
options yields `tile_size = 4096`. -/
theorem construct_options_validation_witness :
    VectorTile.construct 0 0 0 (some ⟨some 0, none⟩) =
      .error ("optional arg 'tile_size' must be greater then zero") ∧
    VectorTile.construct 0 0 0 (some ⟨some 10, some (-5)⟩) =
      .error ("too large of a negative buffer for tilesize") ∧
    (∃ t, VectorTile.construct 0 0 0 none = .ok t ∧ t.tile_size = 4096) :=
  ⟨(construct_options_validation 0 0 0 0 0 none).1 (by decide) (by decide) (by decide)
      (by decide) (by decide) (by decide),
   (construct_options_validation 0 0 0 10 (-5) none).2.1 (by decide) (by decide) (by decide)
      (by decide) (by decide) (by decide) (by decide),
   (construct_options_validation 0 0 0 0 0 none).2.2 (by decide) (by decide) (by decide)
      (by decide) (by decide)⟩

/-- C3 counterexample: the claim as stated is false.  `new VectorTile(0,0,0,
{tile_size: 4096, buffer_size: -2000})` succeeds (effective size `96 > 0`),
and then the assignment `tileSize = 10` succeeds too, although it leaves
`tile_size + 2*buffer_size = 10 - 4000 ≤ 0`: the tileSize setter never
re-checks the combined invariant. -/
theorem set_tile_size_breaks_sizeInvariant :
    VectorTile.construct 0 0 0 (some ⟨some 4096, some (-2000)⟩) = .ok tileThinBuffer ∧
    VectorTile.set_tile_size tileThinBuffer 10 =
      ({ tileThinBuffer with tile_size := 10 }, none) ∧
    ¬ sizeInvariant { tileThinBuffer with tile_size := 10 } :=
  ⟨rfl, rfl, by decide⟩

/-- C3 (amended): `tile_size + 2*buffer_size > 0` holds after every
successful construction and is preserved by every successful `bufferSize`
assignment; a successful `tileSize` assignment guarantees only that the
new `tile_size` is positive (leaving `buffer_size` unchanged) and can break
the combined invariant. -/
theorem sizeInvariant_after_construct_and_set_buffer_size :
    (∀ z x y opts t, VectorTile.construct z x y opts = .ok t → sizeInvariant t) ∧
    (∀ t val t', VectorTile.set_buffer_size t val = (t', none) → sizeInvariant t') ∧
    (∀ t val t', VectorTile.set_tile_size t val = (t', none) →
      0 < t'.tile_size ∧ t'.buffer_size = t.buffer_size) := by
  refine ⟨?_, ?_, ?_⟩
  · intro z x y opts t h
    cases opts with
    | none =>
        simp only [VectorTile.construct] at h
        split at h
        · simp at h
        split at h
        · simp at h
        split at h
        · simp at h
        split at h
        · simp at h
        · simp only [Except.ok.injEq] at h
          subst h
          simp only [sizeInvariant]
          omega
    | some o =>
        simp only [VectorTile.construct] at h
        split at h
        · simp at h
        split at h
        · simp at h
        split at h
        · simp at h
        rcases o with ⟨tso, bso⟩
        cases tso with
        | none =>
            simp only at h
            split at h
            · simp at h
            · rename_i hg
              simp only [Except.ok.injEq] at h
              subst h
              simp only [sizeInvariant] at hg ⊢
              omega
        | some ts =>
            simp only at h
            split at h
            · simp at h
            split at h
            · simp at h
            · rename_i hts hg
              simp only [Except.ok.injEq] at h
              subst h
              simp only [sizeInvariant] at hg ⊢
              omega
  · intro t val t' h
    unfold VectorTile.set_buffer_size at h
    split at h
    · simp_all
    · rename_i hguard
      have ht' : t' = { t with buffer_size := val } := by
        have := congrArg Prod.fst h
        simpa using this.symm
      subst ht'
      simp only [sizeInvariant]
      omega
  · intro t val t' h
    unfold VectorTile.set_tile_size at h
    split at h
    · simp_all
    · rename_i hguard
      have ht' : t' = { t with tile_size := val } := by
        have := congrArg Prod.fst h
        simpa using this.symm
      subst ht'
      constructor
      · simpa using by omega
      · rfl

/-- C3 amended-claim witness: applied at the concrete construction
`(0,0,0)` with default options and at `bufferSize = -5` on that tile. -/
theorem sizeInvariant_after_construct_and_set_buffer_size_witness :
    sizeInvariant tile000 ∧
    sizeInvariant { tile000 with buffer_size := -5 } ∧
    (0 < ({ tile000 with tile_size := 7 }).tile_size ∧
      ({ tile000 with tile_size := 7 }).buffer_size = tile000.buffer_size) :=
  ⟨sizeInvariant_after_construct_and_set_buffer_size.1 0 0 0 none tile000 (by rfl),
   sizeInvariant_after_construct_and_set_buffer_size.2.1 tile000 (-5)
     { tile000 with buffer_size := -5 } (by rfl),
   sizeInvariant_after_construct_and_set_buffer_size.2.2 tile000 7
     { tile000 with tile_size := 7 } (by rfl)⟩

/-- C4 counterexample: the claim as stated is false.  On the tile
constructed as `new VectorTile(0,0,0)`, the assignment `x = 1` succeeds
although `1 ≥ 2^0`: the `x` setter only checks non-negativity, never the
upper bound `x < 2^z`. -/
theorem set_tile_x_accepts_out_of_range :
    VectorTile.construct 0 0 0 none = .ok tile000 ∧
    VectorTile.set_tile_x tile000 1 = ({ tile000 with x := 1 }, none) ∧
    ¬ (({ tile000 with x := 1 }).x < 2 ^ (({ tile000 with x := 1 }).z).toNat) :=
  ⟨rfl, rfl, by decide⟩

/-- C4 (amended): each of the `x` and `y` setters re-validates only the
lower bound of the address invariant: a negative value is rejected with an
error leaving the tile unchanged, and every non-negative value is accepted
and stored (no re-validation against `2^z`). -/
theorem set_tile_xy_lower_bound_only (t : MercTile) (val : Int) :
    (val < 0 → VectorTile.set_tile_x t val =
      (t, some ("tile x coordinate must be greater then or equal to zero"))) ∧
    (0 ≤ val → VectorTile.set_tile_x t val = ({ t with x := val }, none)) ∧
    (val < 0 → VectorTile.set_tile_y t val =
      (t, some ("tile y coordinate must be greater then or equal to zero"))) ∧
    (0 ≤ val → VectorTile.set_tile_y t val = ({ t with y := val }, none)) := by
  refine ⟨?_, ?_, ?_, ?_⟩
  · intro h; simp [VectorTile.set_tile_x, h]
  · intro h; simp [VectorTile.set_tile_x, not_lt.mpr h]
  · intro h; simp [VectorTile.set_tile_y, h]
  · intro h; simp [VectorTile.set_tile_y, not_lt.mpr h]

/-- C4 amended-claim witness: on the `(0,0,0)` tile, `x = -1` is rejected
with the tile unchanged and `x = 0` is stored. -/
theorem set_tile_xy_lower_bound_only_witness :
    VectorTile.set_tile_x tile000 (-1) =
      (tile000, some ("tile x coordinate must be greater then or equal to zero")) ∧
    VectorTile.set_tile_x tile000 0 = ({ tile000 with x := 0 }, none) :=
  ⟨(set_tile_xy_lower_bound_only tile000 (-1)).1 (by decide),
   (set_tile_xy_lower_bound_only tile000 0).2.1 (by decide)⟩

/-- A single validity check appends at most one error record. -/
theorem checkGeom_length_le_one (isValidMsg : Geometry → Option String)
    (toJson : Int → Geometry → String) (fid : Int) (lname : String) (g : Geometry) :
    (checkGeom isValidMsg toJson fid lname g).length ≤ 1 := by
  unfold checkGeom
  cases isValidMsg g <;> simp

/-- The split loop over multi-line-string parts emits exactly the error
records of the invalid parts, in order. -/
theorem visitSplitLines_eq (isValidMsg : Geometry → Option String)
    (toJson : Int → Geometry → String) (fid : Int) (lname : String)
    (parts : List (List Pt)) :
    visitSplitLines isValidMsg toJson fid lname parts =
      (parts.filter (fun p => (isValidMsg (.lineString p)).isSome)).map
        (fun p => (⟨(isValidMsg (.lineString p)).getD "", lname, fid,
          featureCollectionWrap (toJson fid (.lineString p))⟩ : not_valid_feature)) := by
  induction parts with
  | nil => simp [visitSplitLines]
  | cons p rest ih =>
      cases h : isValidMsg (.lineString p) with
      | none => simp [visitSplitLines, checkGeom, h, ih]
      | some m => simp [visitSplitLines, checkGeom, h, ih]

/-- The split loop over multi-polygon parts emits exactly the error
records of the invalid parts, in order. -/
theorem visitSplitPolys_eq (isValidMsg : Geometry → Option String)
    (toJson : Int → Geometry → String) (fid : Int) (lname : String)
    (polys : List (List (List Pt))) :
    visitSplitPolys isValidMsg toJson fid lname polys =
      (polys.filter (fun q => (isValidMsg (.polygon q)).isSome)).map
        (fun q => (⟨(isValidMsg (.polygon q)).getD "", lname, fid,
          featureCollectionWrap (toJson fid (.polygon q))⟩ : not_valid_feature)) := by
  induction polys with
  | nil => simp [visitSplitPolys]
  | cons q rest ih =>
      cases h : isValidMsg (.polygon q) with
      | none => simp [visitSplitPolys, checkGeom, h, ih]
      | some m => simp [visitSplitPolys, checkGeom, h, ih]

/-- C7: for every multi-line-string and multi-polygon, with
`split_multi_features` the visitor tests each part separately and appends
exactly one error record per invalid part (in part order); without it the
multi geometry is tested as a whole and at most one record is appended. -/
theorem visitor_geom_valid_split_multi (isValidMsg : Geometry → Option String)
    (toJson : Int → Geometry → String) (fid : Int) (lname : String)
    (parts : List (List Pt)) (polys : List (List (List Pt))) :
    visitor_geom_valid isValidMsg toJson fid lname true (.multiLineString parts) =
      (parts.filter (fun p => (isValidMsg (.lineString p)).isSome)).map
        (fun p => (⟨(isValidMsg (.lineString p)).getD "", lname, fid,
          featureCollectionWrap (toJson fid (.lineString p))⟩ : not_valid_feature)) ∧
    (visitor_geom_valid isValidMsg toJson fid lname false (.multiLineString parts)).length ≤ 1 ∧
    visitor_geom_valid isValidMsg toJson fid lname true (.multiPolygon polys) =
      (polys.filter (fun q => (isValidMsg (.polygon q)).isSome)).map
        (fun q => (⟨(isValidMsg (.polygon q)).getD "", lname, fid,
          featureCollectionWrap (toJson fid (.polygon q))⟩ : not_valid_feature)) ∧
    (visitor_geom_valid isValidMsg toJson fid lname false (.multiPolygon polys)).length ≤ 1 := by
  refine ⟨?_, ?_, ?_, ?_⟩
  · rw [visitor_geom_valid]
    simpa using visitSplitLines_eq isValidMsg toJson fid lname parts
  · rw [visitor_geom_valid]
    simpa using checkGeom_length_le_one isValidMsg toJson fid lname (.multiLineString parts)
  · rw [visitor_geom_valid]
    simpa using visitSplitPolys_eq isValidMsg toJson fid lname polys
  · rw [visitor_geom_valid]
    simpa using checkGeom_length_le_one isValidMsg toJson fid lname (.multiPolygon polys)

/-- The feature loop of the simplicity check appends, after the running
prefix, exactly one record per non-simple feature. -/
theorem notSimpleLoop_eq (is_simple : Geometry → Bool) (lname : String)
    (fs : List MvtFeature) :
    ∀ acc, notSimpleLoop is_simple lname fs acc =
      acc ++ (fs.filter (fun f => !(is_simple (f.geom.getD Geometry.empty)))).map
        (fun f => (⟨lname, f.fid⟩ : not_simple_feature)) := by
  induction fs with
  | nil => intro acc; simp [notSimpleLoop]
  | cons f rest ih =>
      intro acc
      cases h : is_simple (f.geom.getD Geometry.empty)
      · simp [notSimpleLoop, h, ih, List.append_assoc]
      · simp [notSimpleLoop, h, ih]

/-- The layer loop of the simplicity check concatenates the per-layer
records in layer order after the running prefix. -/
theorem vectorTileNotSimpleLoop_eq (is_simple : Geometry → Bool)
    (Ls : List MvtLayer) :
    ∀ acc, vectorTileNotSimpleLoop is_simple Ls acc =
      acc ++ (Ls.map (fun L =>
        (L.features.filter (fun f => !(is_simple (f.geom.getD Geometry.empty)))).map
          (fun f => (⟨L.name, f.fid⟩ : not_simple_feature)))).flatten := by
  induction Ls with
  | nil => intro acc; simp [vectorTileNotSimpleLoop]
  | cons L rest ih =>
      intro acc
      simp [vectorTileNotSimpleLoop, layer_not_simple, notSimpleLoop_eq, ih,
        List.append_assoc]

/-- C6: the simplicity report contains exactly one `{layer, featureId}`
entry per feature whose geometry fails the simplicity predicate — every
feature of every layer is tested, no failure aborts the scan, and nothing
else is reported; on the tile `(0,0,0)` whose only feature is a simple
2-point line in layer `"roads"`, the report is empty under the modelled
OGC-simple predicate. -/
theorem reportGeometrySimplicitySync_entries :
    (∀ (is_simple : Geometry → Bool) (t : MercTile),
      reportGeometrySimplicitySync is_simple t =
        (t.layers.map (fun L =>
          (L.features.filter (fun f => !(is_simple (f.geom.getD Geometry.empty)))).map
            (fun f => (⟨L.name, f.fid⟩ : not_simple_feature)))).flatten) ∧
    reportGeometrySimplicitySync ogcSimple roadsTile = [] := by
  constructor
  · intro is_simple t
    simpa [reportGeometrySimplicitySync, vector_tile_not_simple] using
      vectorTileNotSimpleLoop_eq is_simple t.layers []
  · decide

/-- C5 (evaluating the code at the failing input): with default options
the validity report built from the raw-protobuf branch carries the
constant feature id `1` — `layer_not_valid` parses the encoded id but
hands the visitor a feature created as `feature_factory::create(ctx, 1)`
(`src/mapnik_vector_tile.cpp:3100`).  On a tile whose single `"parcels"`
feature has encoded id 42 and an invalid bow-tie polygon, the single
reported `featureId` is 1, not 42. -/
theorem reportGeometryValiditySync_constant_feature_id :
    (reportGeometryValiditySync ogcValidMsg (fun _ _ => ("g")) (fun g => g)
        false false false parcelsTile).map (fun e => e.feature_id) = [1] ∧
    parcelsTile.layers.map (fun L => L.features.map (fun f => f.fid)) = [[42]] := by
  constructor
  · decide
  · decide

/-- C1 (evaluating the code at the failing input): `composite` and
`compositeSync` as compiled return `undefined` without reading the source
tiles or options and leave the destination untouched — compositing the two
`(1,0,0)`/`(1,1,0)` one-feature `"points"` tiles into the `(0,0,0)`
destination leaves it with no `"points"` features and not painted, not
the two features the spec requires. -/
theorem compositeSync_stub_leaves_destination_unchanged :
    (∀ (t : MercTile) (sources : List MercTile) (options : List (String × JsValue)),
      VectorTile.compositeSync t sources options = (t, JsValue.undefined) ∧
      VectorTile.composite t sources options = (t, JsValue.undefined)) ∧
    VectorTile.compositeSync tile000 [pointsTile 0 1, pointsTile 1 1] [] =
      (tile000, JsValue.undefined) ∧
    featureCountIn
      (VectorTile.compositeSync tile000 [pointsTile 0 1, pointsTile 1 1] []).1
      "points" = 0 ∧
    (VectorTile.compositeSync tile000 [pointsTile 0 1, pointsTile 1 1] []).1.painted
      = false :=
  ⟨fun _ _ _ => ⟨rfl, rfl⟩, rfl, rfl, rfl⟩

/-- C8 (evaluating the code at the failing input): `VectorTile::layer` as
compiled returns `undefined` for every argument — extracting the missing
layer `"c"` from the tile with layers `["a","b"]` yields no error (not a
`NoOpError`), and extracting the existing layer `"a"` yields no tile. -/
theorem layer_stub_returns_undefined :
    (∀ (t : MercTile) (lname : String),
      VectorTile.layer t lname = (t, JsValue.undefined)) ∧
    VectorTile.layer abTile "c" = (abTile, JsValue.undefined) ∧
    VectorTile.layer abTile "a" = (abTile, JsValue.undefined) ∧
    abTile.layers.map (fun L => L.name) = ["a", "b"] :=
  ⟨fun _ _ => rfl, rfl, rfl, rfl⟩

/-- C10: both pixel visitors are total on the null-image variant for all
coordinates — `visitor_get_pixel` returns `undefined` (`none`) without any
pixel data to read (the null arm owns none), and `visitor_set_pixel` is a
no-op leaving the image unchanged. -/
theorem pixel_visitors_total_on_null {α : Type} (num : α) (x y : Int) :
    visitor_get_pixel (ImageAny.null : ImageAny α) x y = none ∧
    visitor_set_pixel num x y (ImageAny.null : ImageAny α) = ImageAny.null :=
  ⟨rfl, rfl⟩

end NodeMapnik
